import Mathlib

/-!
Verification development for `src/file_counter.py` (cost-count).

The program is a linear scan-compute-report pipeline: it walks a directory
tree, keeps the files whose extension is one of `.pdf`, `.dgn`, `.dwg`
(case-insensitively), computes an A4-equivalent page count for PDFs and a
fixed nominal page count for drawing files, derives a tiered points score,
and writes a spreadsheet with per-type and grand-total statistics.

Embedding conventions:
* Python floats are modelled as exact rationals (`ℚ`); `round(x, 2)` is
  modelled as exact round-half-to-even at two decimals (`round2`).
* `os.walk` (an external traversal primitive) is modelled by giving the
  scanner the flat list of files the walk would enumerate, each carrying the
  fields the program reads: path, filename, `pathlib` suffix and byte size.
* A PDF's parse result is `Option (List PdfPage)`: `some pages` with one
  entry per page carrying the mediabox width/height in points, `none` when
  `pypdf` raises (corrupt file, unsupported structure).
* Printing is modelled by returning the message strings; the exception text
  appended to the warning message is not modelled, only its fixed prefix.
-/

namespace CostCount

/-- Python `round(x, 2)` at integer precision: round half to even. -/
def roundHalfEven (x : ℚ) : ℤ :=
  if x - ⌊x⌋ < 1 / 2 then ⌊x⌋
  else if 1 / 2 < x - ⌊x⌋ then ⌊x⌋ + 1
  else if ⌊x⌋ % 2 = 0 then ⌊x⌋ else ⌊x⌋ + 1

/-- Python `round(x, 2)`: round half to even at two decimal places. -/
def round2 (x : ℚ) : ℚ := (roundHalfEven (x * 100) : ℚ) / 100

/-- `A4_WIDTH_MM = 210` (src line 28). -/
def A4_WIDTH_MM : ℚ := 210

/-- `A4_HEIGHT_MM = 297` (src line 29). -/
def A4_HEIGHT_MM : ℚ := 297

/-- `A4_AREA_MM2 = A4_WIDTH_MM * A4_HEIGHT_MM` (src line 30). -/
def A4_AREA_MM2 : ℚ := A4_WIDTH_MM * A4_HEIGHT_MM

/-- Numeric part of `get_file_size` (src lines 33-40): bytes below 1024,
kilobytes below 1024², else megabytes.  The human-readable string it also
returns is presentation only and is not modelled. -/
def get_file_size (size_bytes : ℕ) : ℚ :=
  if size_bytes < 1024 then size_bytes
  else if size_bytes < 1024 * 1024 then (size_bytes : ℚ) / 1024
  else (size_bytes : ℚ) / (1024 * 1024)

/-- One PDF page: the mediabox width and height in PostScript points. -/
structure PdfPage where
  width_pt : ℚ
  height_pt : ℚ
deriving DecidableEq

/-- Point-to-millimetre conversion `mm = pt * 25.4 / 72` (src lines 62-63). -/
def ptToMm (pt : ℚ) : ℚ := pt * (254 / 10) / 72

/-- `page_width = min(width_mm, height_mm)` (src line 66). -/
def pageWidthMm (pg : PdfPage) : ℚ :=
  min (ptToMm pg.width_pt) (ptToMm pg.height_pt)

/-- `page_height = max(width_mm, height_mm)` (src line 67). -/
def pageHeightMm (pg : PdfPage) : ℚ :=
  max (ptToMm pg.width_pt) (ptToMm pg.height_pt)

/-- `page_area = page_width * page_height` (src line 70). -/
def pageAreaMm2 (pg : PdfPage) : ℚ := pageWidthMm pg * pageHeightMm pg

/-- `page_ratio = page_area / A4_AREA_MM2` (src line 73): one page's
contribution to the A4-equivalent page count. -/
def pageRatio (pg : PdfPage) : ℚ := pageAreaMm2 pg / A4_AREA_MM2

/-- `get_pdf_a4_pages` (src lines 43-79): `(actual page count, a4_pages)`.
The loop accumulates each page's `page_ratio` and the sum is rounded to two
decimals; a failed read (`none`) yields `(0, 0)`. -/
def get_pdf_a4_pages (content : Option (List PdfPage)) : ℕ × ℚ :=
  match content with
  | none => (0, 0)
  | some pages => (pages.length, round2 ((pages.map pageRatio).sum))

/-- The warning `get_pdf_a4_pages` prints (src line 78) on a failed read;
the exception text is not modelled, only the fixed prefix and the path. -/
def get_pdf_a4_pages_log (path : String) (content : Option (List PdfPage)) :
    List String :=
  match content with
  | none => ["读取PDF页数失败 " ++ path]
  | some _ => []

/-- `calculate_pdf_points` (src lines 82-97): 10 points covering the first 3
A4-equivalent pages, 3 points per page beyond that. -/
def calculate_pdf_points (a4_page_count : ℚ) : ℚ :=
  let base_points : ℚ := 10
  let base_pages : ℚ := 3
  if a4_page_count ≤ base_pages then base_points
  else
    let extra_pages := a4_page_count - base_pages
    let extra_points := extra_pages * 3
    base_points + extra_points

/-- `calculate_drawing_points` (src lines 100-106): the fixed DWG/DGN tariff,
computed once from the nominal 16-page assumption. -/
def calculate_drawing_points : ℚ :=
  let base_points : ℚ := 10
  let extra_pages : ℚ := 16 - 3
  base_points + extra_pages * 3

/-- Python `str.lower()` on the suffix: character-wise ASCII lowering. -/
def strLower (s : String) : String := String.mk (s.data.map Char.toLower)

/-- Python `str.upper()`: character-wise ASCII raising. -/
def strUpper (s : String) : String := String.mk (s.data.map Char.toUpper)

/-- `ext.upper().replace('.', '')` (src line 129): replacing every `"."` by
the empty string removes every dot character. -/
def typeOfExt (ext : String) : String :=
  String.mk (((strUpper ext).data).filter (fun c => c ≠ '.'))

/-- One file as the directory walk hands it to the scanner: its path,
filename, `pathlib` suffix (with the dot, original case) and size, plus the
parse result `pypdf` would produce if the file were opened as a PDF. -/
structure SrcFile where
  path : String
  filename : String
  suffix : String
  size_bytes : ℕ
  pdfContent : Option (List PdfPage)
deriving DecidableEq

/-- `extensions = ['.pdf', '.dgn', '.dwg']` (src line 112). -/
def extensions : List String := [".pdf", ".dgn", ".dwg"]

/-- One entry of `file_info_list` (src lines 126-144).  `a4_pages` is
`none` for DWG/DGN records, whose dict has no such key; the human-readable
size string is presentation only and is not modelled. -/
structure FileRecord where
  path : String
  filename : String
  ftype : String
  size_bytes : ℕ
  size_kb : ℚ
  page_count : ℕ
  a4_pages : Option ℚ
  points : ℚ
deriving DecidableEq

/-- The body of the walk loop in `scan_directory` (src lines 117-146) for a
single file: `some record` when the lowered suffix is a supported extension,
`none` otherwise. -/
def processFile (f : SrcFile) : Option FileRecord :=
  let ext := strLower f.suffix
  if ext ∈ extensions then
    if ext = ".pdf" then
      let pa := get_pdf_a4_pages f.pdfContent
      some { path := f.path, filename := f.filename,
             ftype := typeOfExt ext,
             size_bytes := f.size_bytes,
             size_kb := get_file_size f.size_bytes,
             page_count := pa.1, a4_pages := some pa.2,
             points := calculate_pdf_points pa.2 }
    else
      some { path := f.path, filename := f.filename,
             ftype := typeOfExt ext,
             size_bytes := f.size_bytes,
             size_kb := get_file_size f.size_bytes,
             page_count := 16, a4_pages := none,
             points := calculate_drawing_points }
  else none

/-- `scan_directory` (src lines 109-148) over the walked file list. -/
def scan_directory (files : List SrcFile) : List FileRecord :=
  files.filterMap processFile

/-- The warnings one file contributes during the scan: only a file scanned
as a PDF reaches `get_pdf_a4_pages`, whose failure branch prints. -/
def fileLog (f : SrcFile) : List String :=
  if strLower f.suffix = ".pdf" then get_pdf_a4_pages_log f.path f.pdfContent
  else []

/-- All warnings a scan prints, in walk order. -/
def scan_log (files : List SrcFile) : List String :=
  files.foldr (fun f acc => fileLog f ++ acc) []

/-- The reporter's per-type accumulator
`{'count': 0, 'size': 0, 'pages': 0, 'points': 0}` (src line 211). -/
structure TypeAgg where
  count : ℕ
  size : ℕ
  pages : ℚ
  points : ℚ
deriving DecidableEq

/-- The `defaultdict` default (src line 211). -/
def emptyAgg : TypeAgg := { count := 0, size := 0, pages := 0, points := 0 }

/-- `f.get('a4_pages', f.get('page_count', 0))` (src line 217): the
A4-equivalent pages column falls back to `page_count` for DWG/DGN records. -/
def agg_pages_value (r : FileRecord) : ℚ :=
  match r.a4_pages with
  | some a => a
  | none => r.page_count

/-- One iteration of the statistics loop (src lines 213-218) on the
aggregate of the record's own type. -/
def addRecord (s : TypeAgg) (r : FileRecord) : TypeAgg :=
  { count := s.count + 1,
    size := s.size + r.size_bytes,
    pages := s.pages + agg_pages_value r,
    points := s.points + r.points }

/-- One iteration of the statistics loop as an update of the whole
`stats` mapping: only the entry of the record's type changes. -/
def updateStats (stats : String → TypeAgg) (r : FileRecord) :
    String → TypeAgg :=
  fun t => if t = r.ftype then addRecord (stats r.ftype) r else stats t

/-- The `stats` defaultdict after the loop over `file_info_list`
(src lines 211-218), as a total map from type name to aggregate. -/
def buildStats (records : List FileRecord) : String → TypeAgg :=
  records.foldl updateStats (fun _ => emptyAgg)

/-- `total_points = sum(f['points'] for f in file_info_list)` (src line 208). -/
def total_points (records : List FileRecord) : ℚ :=
  (records.map FileRecord.points).sum

/-- `total_size_bytes = sum(f['size_bytes'] ...)` (src line 206). -/
def total_size_bytes (records : List FileRecord) : ℕ :=
  (records.map FileRecord.size_bytes).sum

/-- `total_size_mb = total_size_bytes / (1024 * 1024)` (src line 207). -/
def total_size_mb (records : List FileRecord) : ℚ :=
  (total_size_bytes records : ℚ) / (1024 * 1024)

/-- The grand-total size cell `f"{total_size_mb:.2f}"` (src line 261):
the exact megabyte value rounded to two decimals. -/
def total_size_mb_cell (records : List FileRecord) : ℚ :=
  round2 (total_size_mb records)

/-- What `main` (src lines 300-333) does, stripped of I/O: exit code,
whether a report file is written, and the messages printed after the scan. -/
structure MainResult where
  exitCode : ℕ
  reportWritten : Bool
  messages : List String
deriving DecidableEq

/-- `main` (src lines 300-333): exit 1 when the target is not a directory;
otherwise scan, and when no record was produced print
`没有找到支持的文件类型` and return (exit 0) without writing a report;
otherwise write the timestamped report (exit 0). -/
def main_run (dirExists : Bool) (files : List SrcFile) : MainResult :=
  if dirExists = false then
    { exitCode := 1, reportWritten := false,
      messages := ["错误: 目录不存在"] }
  else
    let records := scan_directory files
    if records.isEmpty then
      { exitCode := 0, reportWritten := false,
        messages := ["找到 " ++ toString records.length ++ " 个文件",
                     "没有找到支持的文件类型"] }
    else
      { exitCode := 0, reportWritten := true,
        messages := ["找到 " ++ toString records.length ++ " 个文件",
                     "报告已生成"] }

/-- A 2-decimal rational that is a whole number. -/
def isIntegral (q : ℚ) : Prop := ∃ z : ℤ, q = (z : ℚ)

/-- A PDF page whose mediabox is exactly A4: 210mm × 297mm, stated in
points (`pt = mm * 360 / 127`, the inverse of `ptToMm`). -/
def a4Page : PdfPage :=
  { width_pt := 210 * (360 / 127), height_pt := 297 * (360 / 127) }

/-- A page of exactly double the A4 area (A3: 297mm × 420mm). -/
def a3Page : PdfPage :=
  { width_pt := 297 * (360 / 127), height_pt := 420 * (360 / 127) }

/-- A page of exactly half the A4 area (A5: 148.5mm × 210mm). -/
def a5Page : PdfPage :=
  { width_pt := (297 / 2) * (360 / 127), height_pt := 210 * (360 / 127) }

/-- A page of 210mm × 893.97mm: its area is exactly 3.01 times A4. -/
def page301 : PdfPage :=
  { width_pt := 210 * (360 / 127), height_pt := (89397 / 100) * (360 / 127) }

/-- A walked `.dwg` file. -/
def sampleDwg : SrcFile :=
  { path := "d/a.dwg", filename := "a.dwg", suffix := ".dwg",
    size_bytes := 5, pdfContent := none }

/-- The record `scan_directory` produces for `sampleDwg`. -/
def sampleDwgRecord : FileRecord :=
  { path := "d/a.dwg", filename := "a.dwg", ftype := "DWG",
    size_bytes := 5, size_kb := 5, page_count := 16, a4_pages := none,
    points := 49 }

/-- A one-page PDF whose page area is 3.01 A4 sheets. -/
def pdf301File : SrcFile :=
  { path := "d/b.pdf", filename := "b.pdf", suffix := ".pdf",
    size_bytes := 300, pdfContent := some [page301] }

/-- A page with a malformed mediabox whose width is negative: `pypdf`'s
`mediabox.width` is `right - left` on the raw rectangle, so a box such as
`/MediaBox [595 0 0 842]` yields a negative width.  Here the raw dimensions
are -210mm × 297mm in points. -/
def negPage : PdfPage :=
  { width_pt := -(210 * (360 / 127)), height_pt := 297 * (360 / 127) }

/-- A one-page PDF whose only page is `negPage`. -/
def negPdfFile : SrcFile :=
  { path := "d/neg.pdf", filename := "neg.pdf", suffix := ".pdf",
    size_bytes := 50, pdfContent := some [negPage] }

/-- A PDF file whose read fails (`pypdf` raises). -/
def badPdf : SrcFile :=
  { path := "d/broken.pdf", filename := "broken.pdf", suffix := ".pdf",
    size_bytes := 7, pdfContent := none }

/-- A walked file with a non-matching extension. -/
def txtFile : SrcFile :=
  { path := "d/readme.txt", filename := "readme.txt", suffix := ".txt",
    size_bytes := 9, pdfContent := none }

/-! ### Helper lemmas -/

lemma calculate_pdf_points_of_le {p : ℚ} (h : p ≤ 3) :
    calculate_pdf_points p = 10 := by
  simp [calculate_pdf_points, h]

lemma calculate_pdf_points_of_gt {p : ℚ} (h : 3 < p) :
    calculate_pdf_points p = 10 + (p - 3) * 3 := by
  simp [calculate_pdf_points, not_le.mpr h]

lemma ten_le_calculate_pdf_points (p : ℚ) : 10 ≤ calculate_pdf_points p := by
  by_cases h : p ≤ 3
  · rw [calculate_pdf_points_of_le h]
  · rw [calculate_pdf_points_of_gt (not_le.mp h)]
    nlinarith [not_le.mp h]

lemma calculate_drawing_points_eq : calculate_drawing_points = 49 := by
  norm_num [calculate_drawing_points]

lemma roundHalfEven_mem (x : ℚ) :
    roundHalfEven x = ⌊x⌋ ∨ roundHalfEven x = ⌊x⌋ + 1 := by
  unfold roundHalfEven
  split_ifs <;> simp

lemma abs_roundHalfEven_sub (x : ℚ) : |(roundHalfEven x : ℚ) - x| ≤ 1 / 2 := by
  have h1 : (⌊x⌋ : ℚ) ≤ x := Int.floor_le x
  have h2 : x < ⌊x⌋ + 1 := Int.lt_floor_add_one x
  unfold roundHalfEven
  split_ifs with h3 h4 h5 <;> rw [abs_le] <;> push_cast <;>
    constructor <;> linarith

lemma roundHalfEven_nonneg {x : ℚ} (h : 0 ≤ x) : 0 ≤ roundHalfEven x := by
  have hf : 0 ≤ ⌊x⌋ := Int.floor_nonneg.mpr h
  rcases roundHalfEven_mem x with h1 | h1 <;> omega

lemma roundHalfEven_intCast (n : ℤ) : roundHalfEven (n : ℚ) = n := by
  unfold roundHalfEven
  rw [Int.floor_intCast]
  norm_num

lemma abs_round2_sub (x : ℚ) : |round2 x - x| ≤ 1 / 200 := by
  have h := abs_roundHalfEven_sub (x * 100)
  have he : round2 x - x = ((roundHalfEven (x * 100) : ℚ) - x * 100) / 100 := by
    unfold round2; ring
  rw [he, abs_div]
  rw [show |(100 : ℚ)| = 100 by norm_num]
  rw [div_le_div_iff₀ (by norm_num) (by norm_num)]
  linarith

lemma round2_nonneg {x : ℚ} (h : 0 ≤ x) : 0 ≤ round2 x := by
  unfold round2
  have := roundHalfEven_nonneg (mul_nonneg h (by norm_num : (0 : ℚ) ≤ 100))
  positivity

lemma round2_eq_self {x : ℚ} (n : ℤ) (h : x * 100 = (n : ℚ)) : round2 x = x := by
  unfold round2
  rw [h, roundHalfEven_intCast, ← h]
  field_simp

lemma mem_scan_iff {files : List SrcFile} {r : FileRecord} :
    r ∈ scan_directory files ↔ ∃ f, f ∈ files ∧ processFile f = some r :=
  List.mem_filterMap

lemma processFile_some_iff (f : SrcFile) :
    (∃ r, processFile f = some r) ↔ strLower f.suffix ∈ extensions := by
  unfold processFile
  by_cases h1 : strLower f.suffix ∈ extensions
  · simp only [if_pos h1]
    refine ⟨fun _ => h1, fun _ => ?_⟩
    split <;> exact ⟨_, rfl⟩
  · simp [if_neg h1, h1]

lemma processFile_eq_pdf {f : SrcFile} (h : strLower f.suffix = ".pdf") :
    processFile f = some
      { path := f.path, filename := f.filename, ftype := "PDF",
        size_bytes := f.size_bytes, size_kb := get_file_size f.size_bytes,
        page_count := (get_pdf_a4_pages f.pdfContent).1,
        a4_pages := some (get_pdf_a4_pages f.pdfContent).2,
        points := calculate_pdf_points (get_pdf_a4_pages f.pdfContent).2 } := by
  unfold processFile
  rw [h]
  rfl

lemma processFile_cases {f : SrcFile} {r : FileRecord}
    (hp : processFile f = some r) :
    (strLower f.suffix = ".pdf" ∧ r.ftype = "PDF" ∧
      r.page_count = (get_pdf_a4_pages f.pdfContent).1 ∧
      r.a4_pages = some (get_pdf_a4_pages f.pdfContent).2 ∧
      r.points = calculate_pdf_points (get_pdf_a4_pages f.pdfContent).2) ∨
    (strLower f.suffix ≠ ".pdf" ∧ r.page_count = 16 ∧ r.a4_pages = none ∧
      r.points = calculate_drawing_points) := by
  unfold processFile at hp
  by_cases h1 : strLower f.suffix ∈ extensions
  · rw [if_pos h1] at hp
    by_cases h2 : strLower f.suffix = ".pdf"
    · rw [if_pos h2] at hp
      left
      obtain rfl := Option.some.inj hp
      exact ⟨h2, by rw [h2]; rfl, rfl, rfl, rfl⟩
    · rw [if_neg h2] at hp
      right
      obtain rfl := Option.some.inj hp
      exact ⟨h2, rfl, rfl, rfl⟩
  · rw [if_neg h1] at hp
    exact absurd hp (by simp)

lemma pageRatio_nonneg {pg : PdfPage} (hw : 0 ≤ pg.width_pt)
    (hh : 0 ≤ pg.height_pt) : 0 ≤ pageRatio pg := by
  have hwm : 0 ≤ ptToMm pg.width_pt := by unfold ptToMm; positivity
  have hhm : 0 ≤ ptToMm pg.height_pt := by unfold ptToMm; positivity
  unfold pageRatio pageAreaMm2 pageWidthMm pageHeightMm A4_AREA_MM2
    A4_WIDTH_MM A4_HEIGHT_MM
  have h1 : (0 : ℚ) ≤ min (ptToMm pg.width_pt) (ptToMm pg.height_pt) :=
    le_min hwm hhm
  have h2 : (0 : ℚ) ≤ max (ptToMm pg.width_pt) (ptToMm pg.height_pt) :=
    le_max_of_le_left hwm
  positivity

lemma get_pdf_a4_pages_nonneg (content : Option (List PdfPage))
    (h : ∀ pg ∈ content.getD [], 0 ≤ pg.width_pt ∧ 0 ≤ pg.height_pt) :
    0 ≤ (get_pdf_a4_pages content).2 := by
  cases content with
  | none => simp [get_pdf_a4_pages]
  | some pages =>
    simp only [get_pdf_a4_pages]
    apply round2_nonneg
    apply List.sum_nonneg
    intro x hx
    obtain ⟨pg, hpg, rfl⟩ := List.mem_map.mp hx
    have hd := h pg (by simpa using hpg)
    exact pageRatio_nonneg hd.1 hd.2

lemma sampleDwg_scan : scan_directory [sampleDwg] = [sampleDwgRecord] := by
  simp [scan_directory, processFile, sampleDwg, sampleDwgRecord, extensions,
    get_file_size, calculate_drawing_points, strLower, typeOfExt, strUpper]
  norm_num

lemma sampleDwg_mem : sampleDwgRecord ∈ scan_directory [sampleDwg] := by
  rw [sampleDwg_scan]
  exact List.mem_singleton.mpr rfl

lemma a4Page_ratio : pageRatio a4Page = 1 := by
  norm_num [pageRatio, pageAreaMm2, pageWidthMm, pageHeightMm, ptToMm,
    a4Page, A4_AREA_MM2, A4_WIDTH_MM, A4_HEIGHT_MM, min_def, max_def]

lemma page301_ratio : pageRatio page301 = 301 / 100 := by
  norm_num [pageRatio, pageAreaMm2, pageWidthMm, pageHeightMm, ptToMm,
    page301, A4_AREA_MM2, A4_WIDTH_MM, A4_HEIGHT_MM, min_def, max_def]

lemma a4Page_single_doc : get_pdf_a4_pages (some [a4Page]) = (1, 1) := by
  simp only [get_pdf_a4_pages, List.map_cons, List.map_nil, List.sum_cons,
    List.sum_nil, List.length_cons, List.length_nil, a4Page_ratio, add_zero]
  exact Prod.ext rfl (round2_eq_self 100 (by norm_num))

lemma page301_single_doc : get_pdf_a4_pages (some [page301]) = (1, 301 / 100) := by
  simp only [get_pdf_a4_pages, List.map_cons, List.map_nil, List.sum_cons,
    List.sum_nil, List.length_cons, List.length_nil, page301_ratio, add_zero]
  exact Prod.ext rfl (round2_eq_self 301 (by norm_num))

lemma negPage_ratio : pageRatio negPage = -1 := by
  norm_num [pageRatio, pageAreaMm2, pageWidthMm, pageHeightMm, ptToMm,
    negPage, A4_AREA_MM2, A4_WIDTH_MM, A4_HEIGHT_MM, min_def, max_def]

lemma negPage_single_doc : get_pdf_a4_pages (some [negPage]) = (1, -1) := by
  simp only [get_pdf_a4_pages, List.map_cons, List.map_nil, List.sum_cons,
    List.sum_nil, List.length_cons, List.length_nil, negPage_ratio, add_zero]
  exact Prod.ext rfl (round2_eq_self (-100) (by norm_num))

lemma foldl_updateStats (records : List FileRecord) (acc : String → TypeAgg)
    (t : String) :
    records.foldl updateStats acc t =
      (records.filter fun r => r.ftype = t).foldl addRecord (acc t) := by
  induction records generalizing acc with
  | nil => rfl
  | cons r rs ih =>
    rw [List.foldl_cons, ih]
    by_cases h : r.ftype = t
    · have hu : updateStats acc r t = addRecord (acc t) r := by
        simp [updateStats, h]
      rw [List.filter_cons_of_pos (by simp [h]), List.foldl_cons, hu]
    · have hu : updateStats acc r t = acc t := by
        unfold updateStats
        rw [if_neg (fun hh : t = r.ftype => h hh.symm)]
      rw [List.filter_cons_of_neg (by simp [h]), hu]

lemma foldl_addRecord (l : List FileRecord) (a : TypeAgg) :
    l.foldl addRecord a =
      { count := a.count + l.length,
        size := a.size + (l.map FileRecord.size_bytes).sum,
        pages := a.pages + (l.map agg_pages_value).sum,
        points := a.points + (l.map FileRecord.points).sum } := by
  induction l generalizing a with
  | nil => simp
  | cons r rs ih =>
    rw [List.foldl_cons, ih]
    simp only [addRecord, List.map_cons, List.sum_cons, List.length_cons,
      TypeAgg.mk.injEq]
    refine ⟨by omega, by omega, by ring, by ring⟩

lemma buildStats_eq (records : List FileRecord) (t : String) :
    buildStats records t =
      { count := (records.filter fun r => r.ftype = t).length,
        size := ((records.filter fun r => r.ftype = t).map
          FileRecord.size_bytes).sum,
        pages := ((records.filter fun r => r.ftype = t).map
          agg_pages_value).sum,
        points := ((records.filter fun r => r.ftype = t).map
          FileRecord.points).sum } := by
  unfold buildStats
  rw [foldl_updateStats, foldl_addRecord]
  simp [emptyAgg]

lemma sum_size_div (records : List FileRecord) :
    (records.map fun r => (r.size_bytes : ℚ) / (1024 * 1024)).sum
      = (total_size_bytes records : ℚ) / (1024 * 1024) := by
  unfold total_size_bytes
  induction records with
  | nil => simp
  | cons r rs ih =>
    simp only [List.map_cons, List.sum_cons, ih]
    push_cast
    ring

/-! ### Claim theorems -/

/-- C1: the points tiering formula returns 10 for every equivalent-page
value p ≤ 3 and 10 + (p - 3) * 3 for every p > 3; in particular p = 0 and
p = 3 yield 10, p = 3.01 yields 10.03, and p = 16 yields 49. -/
theorem points_tiering_formula_correct :
    (∀ p : ℚ, p ≤ 3 → calculate_pdf_points p = 10) ∧
    (∀ p : ℚ, 3 < p → calculate_pdf_points p = 10 + (p - 3) * 3) ∧
    calculate_pdf_points 0 = 10 ∧
    calculate_pdf_points 3 = 10 ∧
    calculate_pdf_points (301 / 100) = 1003 / 100 ∧
    calculate_pdf_points 16 = 49 := by
  refine ⟨fun p h => calculate_pdf_points_of_le h,
    fun p h => calculate_pdf_points_of_gt h,
    calculate_pdf_points_of_le (by norm_num),
    calculate_pdf_points_of_le (by norm_num), ?_, ?_⟩
  · rw [calculate_pdf_points_of_gt (by norm_num)]
    norm_num
  · rw [calculate_pdf_points_of_gt (by norm_num)]
    norm_num

/-- C2: every scanned record whose type is DWG or DGN has page_count 16 and
points 49, regardless of the file's content or size, and 49 is the tiering
formula applied to the value 16. -/
theorem drawing_records_fixed_tariff (files : List SrcFile) (r : FileRecord)
    (hr : r ∈ scan_directory files)
    (ht : r.ftype = "DWG" ∨ r.ftype = "DGN") :
    r.page_count = 16 ∧ r.points = 49 ∧
      calculate_drawing_points = calculate_pdf_points 16 := by
  obtain ⟨f, _, hp⟩ := mem_scan_iff.mp hr
  have h16 : calculate_pdf_points 16 = 49 := by
    rw [calculate_pdf_points_of_gt (by norm_num)]
    norm_num
  rcases processFile_cases hp with ⟨_, hpdf, _, _, _⟩ | ⟨_, hc, _, hpts⟩
  · rcases ht with h | h <;> rw [hpdf] at h <;> exact absurd h (by decide)
  · exact ⟨hc, by rw [hpts, calculate_drawing_points_eq],
      by rw [calculate_drawing_points_eq, h16]⟩

/-- Witness for C2 at a concrete DWG file. -/
theorem drawing_records_fixed_tariff_witness :
    sampleDwgRecord.page_count = 16 ∧ sampleDwgRecord.points = 49 ∧
      calculate_drawing_points = calculate_pdf_points 16 :=
  drawing_records_fixed_tariff [sampleDwg] sampleDwgRecord sampleDwg_mem
    (Or.inl rfl)

/-- C3 (counterexample): the invariant fails on the code in both ways.  A
run over one single-page PDF whose page area is 3.01 A4 sheets produces a
record with points = 10.03, which is not an integer; and a run over one
single-page PDF with a malformed mediabox whose raw width is negative
(pypdf's `mediabox.width` is `right - left`, so a box like
`/MediaBox [595 0 0 842]` yields a negative width, `min * max` goes
negative) produces a record with a4_pages = -1 < 0. -/
theorem record_invariant_counterexample :
    ((scan_directory [pdf301File]).map FileRecord.points = [1003 / 100] ∧
      ¬ isIntegral (1003 / 100 : ℚ)) ∧
    ((scan_directory [negPdfFile]).map FileRecord.a4_pages = [some (-1)] ∧
      ¬ (0 : ℚ) ≤ (-1 : ℚ)) := by
  refine ⟨⟨?_, ?_⟩, ⟨?_, by norm_num⟩⟩
  · have hp := processFile_eq_pdf (f := pdf301File) rfl
    rw [show pdf301File.pdfContent = some [page301] from rfl,
      page301_single_doc] at hp
    simp only [scan_directory, List.filterMap_cons, hp, List.filterMap_nil,
      List.map_cons, List.map_nil]
    rw [calculate_pdf_points_of_gt (by norm_num)]
    norm_num
  · rintro ⟨z, hz⟩
    have hz2 : (1003 : ℚ) = 100 * z := by
      field_simp at hz
      linarith
    have hz3 : (1003 : ℤ) = 100 * z := by exact_mod_cast hz2
    omega
  · have hp := processFile_eq_pdf (f := negPdfFile) rfl
    rw [show negPdfFile.pdfContent = some [negPage] from rfl,
      negPage_single_doc] at hp
    simp only [scan_directory, List.filterMap_cons, hp, List.filterMap_nil,
      List.map_cons, List.map_nil]

/-- C3 (amended): points ≥ 0 holds unconditionally for every record of
every run (the tiering formula never goes below its base of 10, the
drawing tariff is 49); a4_pages ≥ 0 holds for every record of a run over
files whose page dimensions are nonnegative (a malformed mediabox with a
negative raw dimension yields a negative a4_pages, see the
counterexample); and the tiering formula yields integral results for
integral inputs (a 2-decimal input such as 3.01 yields the 2-decimal
value 10.03 instead, see the counterexample). -/
theorem record_values_nonneg (files : List SrcFile)
    (hdim : ∀ f ∈ files, ∀ pg ∈ f.pdfContent.getD [],
      0 ≤ pg.width_pt ∧ 0 ≤ pg.height_pt) :
    (∀ r ∈ scan_directory files, ∀ a, r.a4_pages = some a → 0 ≤ a) ∧
    (∀ gs : List SrcFile, ∀ r ∈ scan_directory gs, 0 ≤ r.points) ∧
    (∀ z : ℤ, isIntegral (calculate_pdf_points (z : ℚ))) := by
  refine ⟨?_, ?_, ?_⟩
  · intro r hr a ha
    obtain ⟨f, hf, hp⟩ := mem_scan_iff.mp hr
    rcases processFile_cases hp with ⟨_, _, _, ha4, _⟩ | ⟨_, _, ha4, _⟩
    · rw [ha4] at ha
      obtain rfl := Option.some.inj ha
      exact get_pdf_a4_pages_nonneg f.pdfContent (hdim f hf)
    · rw [ha4] at ha
      exact absurd ha (by simp)
  · intro gs r hr
    obtain ⟨f, _, hp⟩ := mem_scan_iff.mp hr
    rcases processFile_cases hp with ⟨_, _, _, _, hq⟩ | ⟨_, _, _, hq⟩
    · rw [hq]
      have := ten_le_calculate_pdf_points (get_pdf_a4_pages f.pdfContent).2
      linarith
    · rw [hq, calculate_drawing_points_eq]
      norm_num
  · intro z
    by_cases h : (z : ℚ) ≤ 3
    · exact ⟨10, by rw [calculate_pdf_points_of_le h]; norm_num⟩
    · refine ⟨10 + (z - 3) * 3, ?_⟩
      rw [calculate_pdf_points_of_gt (not_le.mp h)]
      push_cast
      ring

/-- Witness for the amended C3 at a concrete DWG file and the integral
input 5. -/
theorem record_values_nonneg_witness :
    0 ≤ sampleDwgRecord.points ∧
      isIntegral (calculate_pdf_points ((5 : ℤ) : ℚ)) :=
  ⟨(record_values_nonneg [sampleDwg] (by decide)).2.1 [sampleDwg]
      sampleDwgRecord sampleDwg_mem,
    (record_values_nonneg [sampleDwg] (by decide)).2.2 5⟩

/-- C4: a PDF whose read fails yields (0, 0) from the scorer, so its record
carries page_count 0 and a4_pages 0, the warning is printed, and the scan
continues over the files before and after it. -/
theorem pdf_parse_failure_recovered (pre post : List SrcFile) (f : SrcFile)
    (hext : strLower f.suffix = ".pdf") (hfail : f.pdfContent = none) :
    get_pdf_a4_pages f.pdfContent = (0, 0) ∧
    fileLog f = ["读取PDF页数失败 " ++ f.path] ∧
    ∃ r, processFile f = some r ∧ r.page_count = 0 ∧ r.a4_pages = some 0 ∧
      r.points = calculate_pdf_points 0 ∧
      scan_directory (pre ++ f :: post) =
        scan_directory pre ++ r :: scan_directory post := by
  have hz : get_pdf_a4_pages f.pdfContent = (0, 0) := by
    rw [hfail]
    rfl
  refine ⟨hz, ?_, ?_⟩
  · simp only [fileLog, if_pos hext, hfail, get_pdf_a4_pages_log]
  · have hp := processFile_eq_pdf hext
    rw [hz] at hp
    refine ⟨_, hp, rfl, rfl, rfl, ?_⟩
    unfold scan_directory
    rw [List.filterMap_append]
    congr 1
    simp [List.filterMap_cons, hp]

/-- Witness for C4 at a concrete unreadable PDF. -/
theorem pdf_parse_failure_recovered_witness :
    get_pdf_a4_pages badPdf.pdfContent = (0, 0) ∧
    fileLog badPdf = ["读取PDF页数失败 " ++ badPdf.path] ∧
    ∃ r, processFile badPdf = some r ∧ r.page_count = 0 ∧
      r.a4_pages = some 0 ∧ r.points = calculate_pdf_points 0 ∧
      scan_directory ([] ++ badPdf :: []) =
        scan_directory [] ++ r :: scan_directory [] :=
  pdf_parse_failure_recovered [] [] badPdf rfl rfl

/-- C5: a page of exactly A4 dimensions contributes 1 to a4_pages, a page
of double the A4 area contributes 2, a page of half the A4 area contributes
0.5, and a one-page exactly-A4 document yields a4_pages = 1.00 after the
2-decimal rounding of the per-document sum. -/
theorem a4_contribution_area_scaling :
    (∀ pg : PdfPage, ptToMm pg.width_pt = 210 → ptToMm pg.height_pt = 297 →
      pageRatio pg = 1) ∧
    (∀ pg : PdfPage, pageAreaMm2 pg = 2 * A4_AREA_MM2 → pageRatio pg = 2) ∧
    (∀ pg : PdfPage, pageAreaMm2 pg = A4_AREA_MM2 / 2 →
      pageRatio pg = 1 / 2) ∧
    get_pdf_a4_pages (some [a4Page]) = (1, 1) := by
  refine ⟨?_, ?_, ?_, a4Page_single_doc⟩
  · intro pg hw hh
    unfold pageRatio pageAreaMm2 pageWidthMm pageHeightMm
    rw [hw, hh]
    norm_num [A4_AREA_MM2, A4_WIDTH_MM, A4_HEIGHT_MM, min_def, max_def]
  · intro pg h
    unfold pageRatio
    rw [h]
    norm_num [A4_AREA_MM2, A4_WIDTH_MM, A4_HEIGHT_MM]
  · intro pg h
    unfold pageRatio
    rw [h]
    norm_num [A4_AREA_MM2, A4_WIDTH_MM, A4_HEIGHT_MM]

/-- Witness for C5 at concrete A4, A3 (double area) and A5 (half area)
pages. -/
theorem a4_contribution_area_scaling_witness :
    pageRatio a4Page = 1 ∧ pageRatio a3Page = 2 ∧ pageRatio a5Page = 1 / 2 :=
  ⟨a4_contribution_area_scaling.1 a4Page
      (by norm_num [ptToMm, a4Page]) (by norm_num [ptToMm, a4Page]),
    a4_contribution_area_scaling.2.1 a3Page
      (by norm_num [pageAreaMm2, pageWidthMm, pageHeightMm, ptToMm, a3Page,
        A4_AREA_MM2, A4_WIDTH_MM, A4_HEIGHT_MM, min_def, max_def]),
    a4_contribution_area_scaling.2.2.1 a5Page
      (by norm_num [pageAreaMm2, pageWidthMm, pageHeightMm, ptToMm, a5Page,
        A4_AREA_MM2, A4_WIDTH_MM, A4_HEIGHT_MM, min_def, max_def])⟩

/-- C6: the a4_pages computation is orientation-invariant: swapping a
page's width and height leaves its contribution unchanged. -/
theorem pageRatio_swap_invariant (pg : PdfPage) :
    pageRatio { width_pt := pg.height_pt, height_pt := pg.width_pt } =
      pageRatio pg := by
  unfold pageRatio pageAreaMm2 pageWidthMm pageHeightMm
  rw [min_comm (ptToMm pg.height_pt), max_comm (ptToMm pg.height_pt)]

/-- C7: a record appears in the scan output exactly for the walked files
whose lowered extension is one of .pdf, .dgn, .dwg; every matching file
contributes its record and a non-matching file contributes none. -/
theorem scan_matches_supported_extensions (files : List SrcFile)
    (r : FileRecord) (f : SrcFile) :
    (r ∈ scan_directory files ↔ ∃ g, g ∈ files ∧ processFile g = some r) ∧
    ((∃ s, processFile f = some s) ↔ strLower f.suffix ∈ extensions) ∧
    (f ∈ files → ∀ s, processFile f = some s → s ∈ scan_directory files) := by
  refine ⟨mem_scan_iff, processFile_some_iff f, ?_⟩
  intro hf s hs
  exact mem_scan_iff.mpr ⟨f, hf, hs⟩

/-- C8: when the scan yields zero records, main prints the no-files message
and returns without writing a report, with exit code 0. -/
theorem empty_scan_writes_no_report (files : List SrcFile)
    (h : scan_directory files = []) :
    (main_run true files).exitCode = 0 ∧
    (main_run true files).reportWritten = false ∧
    "没有找到支持的文件类型" ∈ (main_run true files).messages := by
  simp [main_run, h]

/-- Witness for C8 at a directory holding only a .txt file. -/
theorem empty_scan_writes_no_report_witness :
    (main_run true [txtFile]).exitCode = 0 ∧
    (main_run true [txtFile]).reportWritten = false ∧
    "没有找到支持的文件类型" ∈ (main_run true [txtFile]).messages :=
  empty_scan_writes_no_report [txtFile] rfl

/-- C9: the grand-total points cell is the sum of per-file points, each
per-type aggregate is the componentwise sum over the records of that type,
and the rounded grand-total size in MB is within 0.01 of the sum of
per-file sizes converted to MB. -/
theorem report_statistics_sums (records : List FileRecord) (t : String) :
    total_points records = (records.map FileRecord.points).sum ∧
    buildStats records t =
      { count := (records.filter fun r => r.ftype = t).length,
        size := ((records.filter fun r => r.ftype = t).map
          FileRecord.size_bytes).sum,
        pages := ((records.filter fun r => r.ftype = t).map
          agg_pages_value).sum,
        points := ((records.filter fun r => r.ftype = t).map
          FileRecord.points).sum } ∧
    |total_size_mb_cell records -
      (records.map fun r => (r.size_bytes : ℚ) / (1024 * 1024)).sum| ≤
      1 / 100 := by
  refine ⟨rfl, buildStats_eq records t, ?_⟩
  rw [sum_size_div]
  show |round2 (total_size_mb records) - total_size_mb records| ≤ 1 / 100
  have h := abs_round2_sub (total_size_mb records)
  linarith

/-- C10: every scanned record has points ≥ 10: the tiering formula never
returns less than its base, and the drawing tariff is the constant 49. -/
theorem record_points_at_least_base (files : List SrcFile) (r : FileRecord)
    (hr : r ∈ scan_directory files) :
    10 ≤ r.points ∧ (∀ p : ℚ, 10 ≤ calculate_pdf_points p) ∧
      calculate_drawing_points = 49 := by
  refine ⟨?_, ten_le_calculate_pdf_points, calculate_drawing_points_eq⟩
  obtain ⟨f, _, hp⟩ := mem_scan_iff.mp hr
  rcases processFile_cases hp with ⟨_, _, _, _, hq⟩ | ⟨_, _, _, hq⟩
  · rw [hq]
    exact ten_le_calculate_pdf_points _
  · rw [hq, calculate_drawing_points_eq]
    norm_num

/-- Witness for C10 at a concrete DWG file. -/
theorem record_points_at_least_base_witness :
    10 ≤ sampleDwgRecord.points ∧
      (∀ p : ℚ, 10 ≤ calculate_pdf_points p) ∧
      calculate_drawing_points = 49 :=
  record_points_at_least_base [sampleDwg] sampleDwgRecord sampleDwg_mem

end CostCount
